import Mathlib

/-!
Verification of the Legal_Advisor retrieval-augmented extraction and
self-correction core, shallowly embedded from the Python sources in
`backend/core` (self_correction.py, rule_checker.py, rag_pipeline.py,
vector_store.py).  Scores are modelled as exact rationals; Python dicts
holding JSON-shaped data are modelled as association lists over a small
dynamic value type.
-/

namespace LegalAdvisor

/-- Dynamic value type standing for the Python values that can appear in an
extraction's `data` mapping (JSON-shaped: strings, integers, lists, dicts,
None). -/
inductive PyVal where
  | str : String → PyVal
  | int : Int → PyVal
  | list : List PyVal → PyVal
  | dict : List (String × PyVal) → PyVal
  | none : PyVal

/-- The `data` mapping of an extraction result, a Python dict modelled as an
association list. -/
abbrev Data := List (String × PyVal)

/-- Python dict lookup: first binding for a key, if any. -/
def lookupData (d : Data) (key : String) : Option PyVal :=
  match d with
  | [] => Option.none
  | (k, v) :: rest => if k = key then some v else lookupData rest key

/-- Python truthiness of a dynamic value (`bool(v)`): empty strings, zero,
empty lists, empty dicts and None are falsy. -/
def PyVal.truthy : PyVal → Bool
  | .str s => !s.isEmpty
  | .int n => n != 0
  | .list l => !l.isEmpty
  | .dict l => !l.isEmpty
  | .none => false

/-- An extraction result as produced by RAGPipeline.extract_category: the
keys of the returned dict. -/
structure Extraction where
  category : String
  data : Data
  sources : List String
  message : String

/-- ConfidenceScore (app/schemas.py): overall, completeness and
evidence_quality on the 0-100 scale plus the correction flag. -/
structure ConfidenceScore where
  overall : ℚ
  completeness : ℚ
  evidence_quality : ℚ
  needs_correction : Bool
  deriving DecidableEq

/-- Category-to-required-fields table from
SelfCorrectionAgent._assess_completeness (the expected_fields dict; .get
with default [] for unknown categories). -/
def expected_fields (category : String) : List String :=
  if category = "definitions" then ["terms"]
  else if category = "eligibility" then ["criteria"]
  else if category = "payments" then ["payment_types"]
  else if category = "penalties" then ["penalties"]
  else if category = "obligations" then ["obligations"]
  else if category = "record_keeping" then ["requirements"]
  else []

/-- Contribution of one required field to the richness score: list-valued
fields contribute min(100, length * 25), everything else 0. -/
def richTerm (data : Data) (field : String) : ℚ :=
  match lookupData data field with
  | some (PyVal.list l) => min 100 ((l.length : ℚ) * 25)
  | _ => 0

/-- Number of required fields present in the data with a truthy value
(the present_fields sum of _assess_completeness). -/
def present_count (required : List String) (data : Data) : Nat :=
  (required.filter (fun f =>
    match lookupData data f with
    | some v => v.truthy
    | Option.none => false)).length

/-- The field_score of _assess_completeness: fraction of required fields
present and non-empty, times 100. -/
def field_score_of (required : List String) (data : Data) : ℚ :=
  ((present_count required data : ℚ) / (required.length : ℚ)) * 100

/-- The richness_score of _assess_completeness after its division by the
number of required fields: capped per-list item counts, averaged. -/
def richness_of (required : List String) (data : Data) : ℚ :=
  (required.foldl (fun acc f => acc + richTerm data f) 0) / (required.length : ℚ)

/-- SelfCorrectionAgent._assess_completeness: 0 for empty data; 50 for
non-empty data in a category with no declared required fields; otherwise
60% field presence blended with 40% list richness. -/
def assess_completeness (category : String) (data : Data) : ℚ :=
  if data.isEmpty then 0
  else
    let required := expected_fields category
    if required.isEmpty then 50
    else field_score_of required data * 0.6 + richness_of required data * 0.4

/-- The weighted overall confidence of SelfCorrectionAgent._calculate_confidence:
completeness * 0.7 + evidence_quality * 0.3. -/
def overall_of (completeness evidence_quality : ℚ) : ℚ :=
  completeness * 0.7 + evidence_quality * 0.3

/-- The needs_correction decision of SelfCorrectionAgent._calculate_confidence,
with min_confidence the configured threshold fraction (default 0.7). -/
def needs_correction_of (min_confidence completeness evidence_quality : ℚ) : Bool :=
  decide (overall_of completeness evidence_quality < min_confidence * 100) ||
  decide (completeness < 50) ||
  decide (evidence_quality < 30)

/-- The evidence-quality metric of SelfCorrectionAgent._calculate_confidence:
min(100, 20 * source count), and 0 for an empty source list. -/
def evidence_quality_of (sources : List String) : ℚ :=
  if sources.isEmpty then 0 else min 100 ((sources.length : ℚ) * 20)

/-- SelfCorrectionAgent._calculate_confidence: derives the confidence score
of an extraction from its data and sources. -/
def calculate_confidence (min_confidence : ℚ) (category : String)
    (extraction : Extraction) : ConfidenceScore :=
  let completeness := assess_completeness category extraction.data
  let evidence_quality := evidence_quality_of extraction.sources
  { overall := overall_of completeness evidence_quality
    completeness := completeness
    evidence_quality := evidence_quality
    needs_correction := needs_correction_of min_confidence completeness evidence_quality }

/-- The extraction of the end-to-end scenario: one definitions term with one
source reference. -/
def exScenario : Extraction :=
  { category := "definitions"
    data := [("terms", PyVal.list [PyVal.dict
      [("term", PyVal.str "X"), ("definition", PyVal.str "Y"),
       ("reference", PyVal.str "p1")]])]
    sources := ["Page 1, Chunk 0"]
    message := "Successfully extracted" }

/-- The mutable configuration of the RAG pipeline that
SelfCorrectionAgent._apply_correction touches: the retrieval width. -/
structure PipelineState where
  retrieval_k : Nat
  deriving DecidableEq

/-- SelfCorrectionAgent._apply_correction, with the pipeline's
extract_category call abstracted as a function of the category and the
retrieval width in force at call time.  Returns the (possibly replaced)
extraction, the pipeline state after the call, and the list of retrieval
widths at which extract_category was invoked. -/
def apply_correction (extract : String → Nat → Extraction) (st : PipelineState)
    (category : String) (extraction : Extraction) (confidence : ConfidenceScore) :
    Extraction × PipelineState × List Nat :=
  if confidence.completeness < 30 then
    let original_k := st.retrieval_k
    let widened_k := min (original_k + 3) 10
    let corrected := extract category widened_k
    (corrected, { retrieval_k := original_k }, [widened_k])
  else if confidence.evidence_quality < 50 then
    (extract category st.retrieval_k, st, [st.retrieval_k])
  else
    (extraction, st, [])

/-- An extraction that drives _apply_correction into its final fallback
branch: completeness 70, evidence quality 60, overall 67 below the default
threshold of 70. -/
def exFallback : Extraction :=
  { category := "definitions"
    data := [("terms", PyVal.list [PyVal.dict
      [("term", PyVal.str "T"), ("definition", PyVal.str "D"),
       ("reference", PyVal.str "p2")]])]
    sources := ["Page 1, Chunk 0", "Page 2, Chunk 1", "Page 3, Chunk 2"]
    message := "Successfully extracted" }

section ScorerTheorems

/-- C1: for the category definitions, scoring the scenario extraction (one
term, one source) at the default threshold 0.7 gives completeness 70,
evidence quality 20, overall 55 and needs_correction = true. -/
theorem scenario_confidence_c1 :
    calculate_confidence 0.7 "definitions" exScenario =
      { overall := 55, completeness := 70, evidence_quality := 20,
        needs_correction := true } := by
  simp only [calculate_confidence, assess_completeness, field_score_of, richness_of,
    present_count, expected_fields, exScenario, richTerm, lookupData, overall_of,
    needs_correction_of, evidence_quality_of, PyVal.truthy]
  norm_num

/-- C2, counterexample: the scorer's overall at completeness 49 and evidence
quality 100 is 64.3, not the 69.3 the claim states. -/
theorem overall_at_49_100_not_69_counterexample_c2 :
    ¬ overall_of 49 100 = 69.3 := by
  norm_num [overall_of]

/-- C2, amended: every extraction whose computed completeness is below 50 is
flagged needs_correction whatever the threshold and overall; in particular at
completeness 49 and evidence quality 100 the overall is 64.3 and the default
threshold flags correction. -/
theorem low_completeness_forces_correction_c2 (t : ℚ) (category : String)
    (e : Extraction)
    (h : (calculate_confidence t category e).completeness < 50) :
    (calculate_confidence t category e).needs_correction = true ∧
    overall_of 49 100 = 64.3 ∧ needs_correction_of 0.7 49 100 = true := by
  refine ⟨?_, by norm_num [overall_of], by norm_num [needs_correction_of, overall_of]⟩
  have h' : assess_completeness category e.data < 50 := h
  show needs_correction_of t (assess_completeness category e.data)
    (evidence_quality_of e.sources) = true
  simp [needs_correction_of, decide_eq_true h']

/-- C2, witness: an extraction with empty data has completeness 0 below 50
and is flagged for correction. -/
theorem low_completeness_forces_correction_c2_witness :
    (calculate_confidence 0.7 "definitions"
      { category := "definitions", data := [], sources := ["Page 1, Chunk 0"],
        message := "Successfully extracted" }).needs_correction = true ∧
    overall_of 49 100 = 64.3 ∧ needs_correction_of 0.7 49 100 = true :=
  low_completeness_forces_correction_c2 0.7 "definitions"
    { category := "definitions", data := [], sources := ["Page 1, Chunk 0"],
      message := "Successfully extracted" }
    (by norm_num [calculate_confidence, assess_completeness])

end ScorerTheorems

section CorrectionStepTheorems

/-- C3, counterexample: a realizable confidence score with needs_correction =
true (completeness 70, evidence quality 60, overall 67 below the default
threshold 70) reaches the final fallback branch of _apply_correction, which
returns the extraction unchanged with no re-extraction call. -/
theorem fallback_reachable_counterexample_c3 :
    (calculate_confidence 0.7 "definitions" exFallback).needs_correction = true ∧
    apply_correction (fun _ _ => exScenario) { retrieval_k := 5 } "definitions"
      exFallback (calculate_confidence 0.7 "definitions" exFallback)
      = (exFallback, { retrieval_k := 5 }, []) := by
  have hc : calculate_confidence 0.7 "definitions" exFallback =
      { overall := 67, completeness := 70, evidence_quality := 60,
        needs_correction := true } := by
    simp only [calculate_confidence, assess_completeness, field_score_of, richness_of,
      present_count, expected_fields, exFallback, richTerm, lookupData, overall_of,
      needs_correction_of, evidence_quality_of, PyVal.truthy]
    norm_num
  rw [hc]
  refine ⟨rfl, ?_⟩
  norm_num [apply_correction]

/-- C3, amended: the final fallback branch of _apply_correction is reachable
under needs_correction = true (for example at completeness 70 and evidence
quality 60 the overall 67 is below the default threshold 70); whenever the
received score has completeness at least 30 and evidence quality at least 50,
the correction step returns the extraction unchanged and performs no
re-extraction. -/
theorem fallback_returns_unchanged_c3 (extract : String → Nat → Extraction)
    (st : PipelineState) (category : String) (extraction : Extraction)
    (confidence : ConfidenceScore)
    (h1 : 30 ≤ confidence.completeness) (h2 : 50 ≤ confidence.evidence_quality) :
    apply_correction extract st category extraction confidence
      = (extraction, st, []) := by
  simp [apply_correction, not_lt.mpr h1, not_lt.mpr h2]

/-- C3, witness: the fallback theorem applied at the concrete score 70 / 60. -/
theorem fallback_returns_unchanged_c3_witness :
    apply_correction (fun _ _ => exScenario) { retrieval_k := 5 } "definitions"
      exFallback
      { overall := 67, completeness := 70, evidence_quality := 60,
        needs_correction := true }
      = (exFallback, { retrieval_k := 5 }, []) :=
  fallback_returns_unchanged_c3 (fun _ _ => exScenario) { retrieval_k := 5 }
    "definitions" exFallback
    { overall := 67, completeness := 70, evidence_quality := 60,
      needs_correction := true }
    (by norm_num) (by norm_num)

/-- C9: when completeness is below 30, the correction re-extracts at the
widened retrieval width min(k + 3, 10) exactly once, and the pipeline's
retrieval width after the call is the original k. -/
theorem widening_is_one_shot_c9 (extract : String → Nat → Extraction)
    (st : PipelineState) (category : String) (extraction : Extraction)
    (confidence : ConfidenceScore)
    (h : confidence.completeness < 30) :
    apply_correction extract st category extraction confidence
      = (extract category (min (st.retrieval_k + 3) 10),
         { retrieval_k := st.retrieval_k }, [min (st.retrieval_k + 3) 10]) := by
  simp [apply_correction, h]

/-- C9, witness: at original width 5 a low-completeness correction runs the
re-extraction at width 8 and restores width 5. -/
theorem widening_is_one_shot_c9_witness :
    apply_correction (fun _ _ => exScenario) { retrieval_k := 5 } "definitions"
      exScenario
      { overall := 14, completeness := 20, evidence_quality := 0,
        needs_correction := true }
      = (exScenario, { retrieval_k := 5 }, [8]) := by
  have h := widening_is_one_shot_c9 (fun _ _ => exScenario) { retrieval_k := 5 }
    "definitions" exScenario
    { overall := 14, completeness := 20, evidence_quality := 0,
      needs_correction := true }
    (by norm_num)
  simpa using h

end CorrectionStepTheorems

/-- The annotated result returned by SelfCorrectionAgent.validate_and_correct:
the final extraction together with the keys the method merges into it
(confidence, iterations, validated, and the exhaustion message when present). -/
structure VCResult where
  extraction : Extraction
  confidence : ConfidenceScore
  iterations : Nat
  validated : Bool
  message : Option String

/-- The while loop of SelfCorrectionAgent.validate_and_correct, by recursion
on the remaining iteration budget (fuel = max_iterations - iteration).  The
confidence computation is calc; the correction step is correct.  Besides the
annotated result it returns how many scoring calls and how many correction
attempts were made. -/
def vc_loop (score : Extraction → ConfidenceScore)
    (correct : Extraction → ConfidenceScore → Extraction) :
    Nat → Nat → Extraction → VCResult × Nat × Nat
  | 0, iteration, cur =>
    ({ extraction := cur, confidence := score cur, iterations := iteration,
       validated := false,
       message := some "Max iterations reached without full validation" }, 1, 0)
  | fuel + 1, iteration, cur =>
    let confidence := score cur
    if confidence.needs_correction then
      let rest := vc_loop score correct fuel (iteration + 1) (correct cur confidence)
      (rest.1, rest.2.1 + 1, rest.2.2 + 1)
    else
      ({ extraction := cur, confidence := confidence, iterations := iteration + 1,
         validated := true, message := Option.none }, 1, 0)

/-- SelfCorrectionAgent.validate_and_correct: runs the scoring/correction loop
from iteration 0 with the configured budget, scoring with
_calculate_confidence at the configured threshold. -/
def validate_and_correct (min_confidence : ℚ) (category : String)
    (correct : Extraction → ConfidenceScore → Extraction)
    (max_iterations : Nat) (initial : Extraction) : VCResult × Nat × Nat :=
  vc_loop (calculate_confidence min_confidence category) correct max_iterations 0 initial

/-- Call-count and exhaustion-shape bounds for the loop body, by induction on
the remaining budget. -/
theorem vc_loop_bounds (score : Extraction → ConfidenceScore)
    (correct : Extraction → ConfidenceScore → Extraction) :
    ∀ (fuel iteration : Nat) (cur : Extraction),
      (vc_loop score correct fuel iteration cur).2.1 ≤ fuel + 1 ∧
      (vc_loop score correct fuel iteration cur).2.2 ≤ fuel ∧
      ((vc_loop score correct fuel iteration cur).1.validated = true ∨
       ((vc_loop score correct fuel iteration cur).1.validated = false ∧
        (vc_loop score correct fuel iteration cur).1.message =
          some "Max iterations reached without full validation")) := by
  intro fuel
  induction fuel with
  | zero =>
    intro iteration cur
    exact ⟨le_refl 1, le_refl 0, Or.inr ⟨rfl, rfl⟩⟩
  | succ n ih =>
    intro iteration cur
    by_cases h : (score cur).needs_correction
    · obtain ⟨h1, h2, h3⟩ := ih (iteration + 1) (correct cur (score cur))
      simp only [vc_loop, h, if_true]
      refine ⟨by omega, by omega, h3⟩
    · simp only [vc_loop, h, Bool.false_eq_true, if_false]
      exact ⟨by omega, by omega, Or.inl trivial⟩

/-- C4: validate_and_correct makes at most max_iterations + 1 scoring calls
and at most max_iterations correction attempts, and either validates the
result or returns it annotated validated = false with the exhaustion message
rather than failing. -/
theorem loop_terminates_within_budget_c4 (min_confidence : ℚ) (category : String)
    (correct : Extraction → ConfidenceScore → Extraction)
    (max_iterations : Nat) (initial : Extraction) :
    (validate_and_correct min_confidence category correct max_iterations initial).2.1
      ≤ max_iterations + 1 ∧
    (validate_and_correct min_confidence category correct max_iterations initial).2.2
      ≤ max_iterations ∧
    ((validate_and_correct min_confidence category correct max_iterations
        initial).1.validated = true ∨
     ((validate_and_correct min_confidence category correct max_iterations
        initial).1.validated = false ∧
      (validate_and_correct min_confidence category correct max_iterations
        initial).1.message =
        some "Max iterations reached without full validation")) :=
  vc_loop_bounds (calculate_confidence min_confidence category) correct
    max_iterations 0 initial

/-- A retrieved chunk as a langchain Document: page content plus a string
metadata map. -/
structure Doc where
  page_content : String
  metadata : List (String × String)

/-- Python metadata.get(key, default). -/
def metaGet (doc : Doc) (key : String) (dflt : String) : String :=
  match doc.metadata.lookup key with
  | some v => v
  | Option.none => dflt

/-- RuleResult (app/schemas.py): name, pass/fail status, evidence text and
confidence. -/
structure RuleResult where
  rule : String
  status : String
  evidence : String
  confidence : ℚ
  deriving DecidableEq

/-- A rule of the RuleChecker catalog. -/
structure Rule where
  id : Nat
  name : String
  description : String
  query : String

/-- RuleChecker.RULES: the fixed catalog of six compliance rules. -/
def RULES : List Rule :=
  [{ id := 1, name := "Key Terms Defined",
     description := "Document contains clear definitions of key terms",
     query := "definitions, defined terms, interpretation, meaning, glossary" },
   { id := 2, name := "Eligibility Criteria Present",
     description := "Document specifies eligibility criteria or requirements",
     query := "eligibility, eligible, qualified, requirements, criteria, entitled" },
   { id := 3, name := "Authority Responsibilities Specified",
     description := "Document defines authority or agency responsibilities",
     query := "authority, agency, minister, department, responsible, administer, powers, duties" },
   { id := 4, name := "Penalties/Enforcement Exist",
     description := "Document includes penalties or enforcement mechanisms",
     query := "penalty, fine, sanction, enforcement, violation, offense, prosecution, punishment" },
   { id := 5, name := "Payment/Entitlement Structure",
     description := "Document describes payment or entitlement structure",
     query := "payment, amount, benefit, entitlement, compensation, calculation, rate" },
   { id := 6, name := "Reporting/Record-keeping",
     description := "Document includes reporting or record-keeping requirements",
     query := "record, report, maintain, documentation, register, keep, filing, submit" }]

/-- The fields _validate_with_llm extracts from the language model's JSON
adjudication (or from its error fallback). -/
structure RuleValidation where
  status : String
  evidence : String
  confidence : ℚ

/-- RuleChecker._extract_evidence: up to three snippets, each truncated to
300 characters and annotated with page and section. -/
def extract_evidence (documents : List Doc) : String :=
  String.intercalate "\n\n"
    ((documents.take 3).map (fun doc =>
      "[Page " ++ metaGet doc "page_number" "N/A" ++ ", Section: " ++
        metaGet doc "section_header" "N/A" ++ "] " ++
        doc.page_content.take 300 ++ "..."))

/-- RuleChecker._check_rule, with the vector-store search and the
language-model adjudication (_validate_with_llm) abstracted as functions.
The second component counts how many times the adjudication - and hence the
language model - was invoked. -/
def check_rule (rule : Rule) (searchFn : String → Nat → List (Doc × ℚ))
    (validate : Rule → String → RuleValidation) : RuleResult × Nat :=
  let results := searchFn rule.query 3
  if results.isEmpty then
    ({ rule := rule.name, status := "fail",
       evidence := "No relevant content found", confidence := 0 }, 0)
  else
    let evidence_docs := results.map Prod.fst
    let evidence_text := extract_evidence evidence_docs
    let validation := validate rule evidence_text
    ({ rule := rule.name, status := validation.status,
       evidence := validation.evidence, confidence := validation.confidence }, 1)

/-- The summary dict returned by RuleChecker.get_compliance_summary. -/
structure ComplianceSummary where
  total_rules : Nat
  passed : Nat
  failed : Nat
  pass_rate : ℚ
  average_confidence : ℚ
  overall_status : String
  deriving DecidableEq

/-- RuleChecker.get_compliance_summary: counts passed rules, derives the pass
rate and average confidence, and declares compliance at four or more passes. -/
def get_compliance_summary (rule_results : List RuleResult) : ComplianceSummary :=
  let total_rules := rule_results.length
  let passed_rules := (rule_results.filter (fun r => r.status = "pass")).length
  { total_rules := total_rules
    passed := passed_rules
    failed := total_rules - passed_rules
    pass_rate :=
      if 0 < total_rules then ((passed_rules : ℚ) / (total_rules : ℚ)) * 100 else 0
    average_confidence :=
      if 0 < total_rules then (rule_results.map RuleResult.confidence).sum / (total_rules : ℚ)
      else 0
    overall_status := if 4 ≤ passed_rules then "compliant" else "non-compliant" }

section RuleTheorems

/-- C5: for every list of six rule results, the summary's pass rate is the
passed count over six times one hundred, and the overall status is compliant
exactly when at least four rules passed. -/
theorem compliance_threshold_c5 (rule_results : List RuleResult)
    (h : rule_results.length = 6) :
    ((get_compliance_summary rule_results).overall_status = "compliant" ↔
      4 ≤ (rule_results.filter (fun r => r.status = "pass")).length) ∧
    (get_compliance_summary rule_results).pass_rate =
      ((rule_results.filter (fun r => r.status = "pass")).length : ℚ) / 6 * 100 := by
  constructor
  · by_cases hp : 4 ≤ (rule_results.filter (fun r => r.status = "pass")).length
    · simp [get_compliance_summary, hp]
    · simp [get_compliance_summary, hp]
  · simp [get_compliance_summary, h]

/-- Six concrete rule results with exactly three passes. -/
def threePassResults : List RuleResult :=
  [{ rule := "Key Terms Defined", status := "pass", evidence := "e1", confidence := 80 },
   { rule := "Eligibility Criteria Present", status := "pass", evidence := "e2", confidence := 75 },
   { rule := "Authority Responsibilities Specified", status := "pass", evidence := "e3", confidence := 60 },
   { rule := "Penalties/Enforcement Exist", status := "fail", evidence := "e4", confidence := 40 },
   { rule := "Payment/Entitlement Structure", status := "fail", evidence := "e5", confidence := 30 },
   { rule := "Reporting/Record-keeping", status := "fail", evidence := "e6", confidence := 20 }]

/-- C5, witness: the threshold theorem applied at a concrete six-result list
with three passes. -/
theorem compliance_threshold_c5_witness :
    ((get_compliance_summary threePassResults).overall_status = "compliant" ↔
      4 ≤ (threePassResults.filter (fun r => r.status = "pass")).length) ∧
    (get_compliance_summary threePassResults).pass_rate =
      ((threePassResults.filter (fun r => r.status = "pass")).length : ℚ) / 6 * 100 :=
  compliance_threshold_c5 threePassResults rfl

/-- C6: when retrieval returns zero hits, checking a rule yields a failing
result with evidence text reporting no relevant content and confidence zero,
and the language-model adjudication is invoked zero times. -/
theorem zero_hits_short_circuit_c6 (rule : Rule)
    (searchFn : String → Nat → List (Doc × ℚ))
    (validate : Rule → String → RuleValidation)
    (h : searchFn rule.query 3 = []) :
    check_rule rule searchFn validate =
      ({ rule := rule.name, status := "fail",
         evidence := "No relevant content found", confidence := 0 }, 0) := by
  simp [check_rule, h]

/-- C6, witness: the short-circuit theorem applied to the first catalog rule
with an empty retrieval stub. -/
theorem zero_hits_short_circuit_c6_witness :
    check_rule
      { id := 1, name := "Key Terms Defined",
        description := "Document contains clear definitions of key terms",
        query := "definitions, defined terms, interpretation, meaning, glossary" }
      (fun _ _ => []) (fun _ _ => { status := "pass", evidence := "stub", confidence := 100 }) =
      ({ rule := "Key Terms Defined", status := "fail",
         evidence := "No relevant content found", confidence := 0 }, 0) :=
  zero_hits_short_circuit_c6
    { id := 1, name := "Key Terms Defined",
      description := "Document contains clear definitions of key terms",
      query := "definitions, defined terms, interpretation, meaning, glossary" }
    (fun _ _ => []) (fun _ _ => { status := "pass", evidence := "stub", confidence := 100 })
    rfl

end RuleTheorems

/-- RAGPipeline.CATEGORIES: the fixed ordered category set. -/
def CATEGORIES : List String :=
  ["definitions", "eligibility", "payments", "penalties", "obligations",
   "record_keeping"]

/-- RAGPipeline._prepare_context: each retrieved document rendered as a
numbered excerpt annotated with page and section. -/
def prepare_context (documents : List Doc) : String :=
  String.intercalate "\n"
    ((List.enumFrom 1 documents).map (fun p =>
      "[Excerpt " ++ toString p.1 ++ "] (Page " ++ metaGet p.2 "page_number" "N/A" ++
        ", Section: " ++ metaGet p.2 "section_header" "N/A" ++ ")\n" ++
        p.2.page_content.trim ++ "\n"))

/-- The category_instructions table of RAGPipeline._create_extraction_prompt
(per-category JSON format instructions; braces written as \x7b and \x7d). -/
def category_instructions (category : String) : String :=
  if category = "definitions" then
    "Extract all defined terms and their definitions. Format as:\n\x7b\n    \"terms\": [\n        \x7b\"term\": \"term name\", \"definition\": \"definition text\", \"reference\": \"section/page\"\x7d,\n        ...\n    ]\n\x7d"
  else if category = "eligibility" then
    "Extract eligibility criteria and requirements. Format as:\n\x7b\n    \"criteria\": [\n        \x7b\"requirement\": \"requirement description\", \"details\": \"additional details\", \"reference\": \"section/page\"\x7d,\n        ...\n    ],\n    \"exclusions\": [\"exclusion1\", \"exclusion2\", ...]\n\x7d"
  else if category = "payments" then
    "Extract payment and entitlement information. Format as:\n\x7b\n    \"payment_types\": [\n        \x7b\"type\": \"payment type\", \"amount\": \"amount or formula\", \"frequency\": \"frequency\", \"reference\": \"section/page\"\x7d,\n        ...\n    ],\n    \"calculation_method\": \"description of how payments are calculated\"\n\x7d"
  else if category = "penalties" then
    "Extract penalties and enforcement mechanisms. Format as:\n\x7b\n    \"penalties\": [\n        \x7b\"violation\": \"violation description\", \"penalty\": \"penalty description\", \"severity\": \"severity level\", \"reference\": \"section/page\"\x7d,\n        ...\n    ],\n    \"enforcement_authority\": \"authority responsible for enforcement\"\n\x7d"
  else if category = "obligations" then
    "Extract obligations and responsibilities. Format as:\n\x7b\n    \"obligations\": [\n        \x7b\"party\": \"obligated party\", \"obligation\": \"obligation description\", \"deadline\": \"deadline if any\", \"reference\": \"section/page\"\x7d,\n        ...\n    ]\n\x7d"
  else if category = "record_keeping" then
    "Extract record-keeping and reporting requirements. Format as:\n\x7b\n    \"requirements\": [\n        \x7b\"type\": \"record type\", \"retention_period\": \"how long to keep\", \"responsible_party\": \"who maintains\", \"reference\": \"section/page\"\x7d,\n        ...\n    ],\n    \"reporting_obligations\": [\"reporting requirement1\", \"reporting requirement2\", ...]\n\x7d"
  else "Extract relevant information in JSON format."

/-- RAGPipeline._create_extraction_prompt: the extraction instruction for one
category over the rendered context. -/
def create_extraction_prompt (category context : String) : String :=
  "You are a legal document analyst specializing in extracting structured information from legal texts.\n\nCategory: " ++
    category.toUpper ++ "\n\nContext from Document:\n" ++ context ++
    "\n\nTask: " ++ category_instructions category ++
    "\n\nIMPORTANT: Respond ONLY with valid JSON. Do not include any explanatory text, markdown formatting, or code blocks. Just the raw JSON object."

/-- RAGPipeline._parse_llm_response: strip markdown code fences, then parse as
JSON with the external parser json_loads, falling back to an empty mapping
when parsing fails. -/
def parse_llm_response (json_loads : String → Option Data) (response : String) :
    Data :=
  let cleaned := response.trim
  let cleaned := if cleaned.startsWith "```json" then cleaned.drop 7 else cleaned
  let cleaned := if cleaned.startsWith "```" then cleaned.drop 3 else cleaned
  let cleaned := if cleaned.endsWith "```" then cleaned.dropRight 3 else cleaned
  let cleaned := cleaned.trim
  match json_loads cleaned with
  | some parsed => parsed
  | Option.none => []

/-- RAGPipeline.extract_category, with the language-model call modelled as a
fallible function (Except.error standing for a raised invocation failure),
JSON decoding and the vector-store category search abstracted as functions.
The outer Except is the method's own raise on an invalid category. -/
def extract_category (llm : String → Except String String)
    (json_loads : String → Option Data)
    (search_by_category : String → Nat → List Doc)
    (retrieval_k : Nat) (category : String) : Except String Extraction :=
  if category ∈ CATEGORIES then
    let relevant_docs := search_by_category category retrieval_k
    if relevant_docs.isEmpty then
      Except.ok { category := category, data := [], sources := [],
                  message := "No relevant information found" }
    else
      let context := prepare_context relevant_docs
      let prompt := create_extraction_prompt category context
      match llm prompt with
      | Except.ok response =>
        let extracted_data := parse_llm_response json_loads response
        let sources := relevant_docs.map (fun doc =>
          "Page " ++ metaGet doc "page_number" "N/A" ++ ", Chunk " ++
            metaGet doc "chunk_id" "N/A")
        Except.ok { category := category, data := extracted_data,
                    sources := sources, message := "Successfully extracted" }
      | Except.error e =>
        Except.ok { category := category, data := [], sources := [],
                    message := "Extraction failed: " ++ e }
  else Except.error ("Invalid category: " ++ category)

/-- RAGPipeline.extract_all_categories: one extraction per category of the
fixed catalog, in catalog order. -/
def extract_all_categories (llm : String → Except String String)
    (json_loads : String → Option Data)
    (search_by_category : String → Nat → List Doc) (retrieval_k : Nat) :
    List (String × Except String Extraction) :=
  CATEGORIES.map (fun category =>
    (category, extract_category llm json_loads search_by_category retrieval_k category))

section PipelineTheorems

/-- C7: a failing language-model call is absorbed: extract_category returns a
normal result with empty data, empty sources and an explanatory message
instead of propagating the failure, and extract_all_categories still yields
one non-raising, empty-data entry per catalog category. -/
theorem llm_failure_absorbed_c7 (json_loads : String → Option Data)
    (search_by_category : String → Nat → List Doc) (retrieval_k : Nat)
    (err : String) (category : String)
    (hc : category ∈ CATEGORIES)
    (hne : search_by_category category retrieval_k ≠ []) :
    extract_category (fun _ => Except.error err) json_loads search_by_category
        retrieval_k category =
      Except.ok { category := category, data := [], sources := [],
                  message := "Extraction failed: " ++ err } ∧
    (extract_all_categories (fun _ => Except.error err) json_loads
        search_by_category retrieval_k).map Prod.fst = CATEGORIES ∧
    ∀ p ∈ extract_all_categories (fun _ => Except.error err) json_loads
        search_by_category retrieval_k,
      ∃ r, p.2 = Except.ok r ∧ r.data = [] ∧ r.sources = [] := by
  refine ⟨?_, ?_, ?_⟩
  · have hne' : (search_by_category category retrieval_k).isEmpty = false := by
      simpa [List.isEmpty_iff] using hne
    simp [extract_category, hc, hne']
  · rfl
  · intro p hp
    simp only [extract_all_categories, List.mem_map] at hp
    obtain ⟨c, hcmem, rfl⟩ := hp
    simp only [extract_category, hcmem, if_pos]
    by_cases hd : (search_by_category c retrieval_k).isEmpty
    · exact ⟨{ category := c, data := [], sources := [],
               message := "No relevant information found" },
             by simp [hd], rfl, rfl⟩
    · simp only [Bool.not_eq_true] at hd
      exact ⟨{ category := c, data := [], sources := [],
               message := "Extraction failed: " ++ err },
             by simp [hd], rfl, rfl⟩

/-- C7, witness: the absorption theorem applied at the category definitions
with a one-document retrieval stub and an always-failing language model. -/
theorem llm_failure_absorbed_c7_witness :
    extract_category (fun _ => Except.error "API timeout") (fun _ => Option.none)
        (fun _ _ => [{ page_content := "text",
                       metadata := [("page_number", "1"), ("chunk_id", "0")] }])
        5 "definitions" =
      Except.ok { category := "definitions", data := [], sources := [],
                  message := "Extraction failed: " ++ "API timeout" } ∧
    (extract_all_categories (fun _ => Except.error "API timeout")
        (fun _ => Option.none)
        (fun _ _ => [{ page_content := "text",
                       metadata := [("page_number", "1"), ("chunk_id", "0")] }])
        5).map Prod.fst = CATEGORIES ∧
    ∀ p ∈ extract_all_categories (fun _ => Except.error "API timeout")
        (fun _ => Option.none)
        (fun _ _ => [{ page_content := "text",
                       metadata := [("page_number", "1"), ("chunk_id", "0")] }])
        5,
      ∃ r, p.2 = Except.ok r ∧ r.data = [] ∧ r.sources = [] :=
  llm_failure_absorbed_c7 (fun _ => Option.none)
    (fun _ _ => [{ page_content := "text",
                   metadata := [("page_number", "1"), ("chunk_id", "0")] }])
    5 "API timeout" "definitions" (by simp [CATEGORIES]) (by simp)

end PipelineTheorems

/-- Modelled from the spec: the FAISS similarity search with scores that
VectorStoreManager.search delegates to.  The faiss/langchain index is an
external collaborator whose code is not in the repository; per spec section
4.1 it returns an ordered list of hits, best similarity first, and k is
clamped to the available chunk count. -/
def faiss_similarity_search (docs : List Doc) (similarity : String → Doc → ℚ)
    (query : String) (k : Nat) : List (Doc × ℚ) :=
  (((docs.map (fun d => (d, similarity query d))).mergeSort
    (fun a b => decide (b.2 ≤ a.2))).take k)

/-- VectorStoreManager.search: raises when no index is built or loaded,
otherwise delegates to the similarity search of the underlying index. -/
def vs_search (store : Option (List Doc)) (similarity : String → Doc → ℚ)
    (query : String) (k : Nat) : Except String (List (Doc × ℚ)) :=
  match store with
  | Option.none => Except.error "No vector store loaded. Build or load index first."
  | some docs => Except.ok (faiss_similarity_search docs similarity query k)

section VectorStoreTheorems

/-- C8: over a built index, search returns min(k, chunk count) hits, so the
result count never exceeds the number of chunks in the index. -/
theorem search_k_clamped_c8 (docs : List Doc) (similarity : String → Doc → ℚ)
    (query : String) (k : Nat) :
    vs_search (some docs) similarity query k
      = Except.ok (faiss_similarity_search docs similarity query k) ∧
    (faiss_similarity_search docs similarity query k).length = min k docs.length ∧
    (faiss_similarity_search docs similarity query k).length ≤ docs.length := by
  have hlen : (faiss_similarity_search docs similarity query k).length
      = min k docs.length := by
    simp [faiss_similarity_search, List.length_take, List.length_mergeSort]
  exact ⟨rfl, hlen, by rw [hlen]; exact min_le_right _ _⟩

end VectorStoreTheorems

section BoundsLemmas

theorem richTerm_nonneg (data : Data) (field : String) : 0 ≤ richTerm data field := by
  unfold richTerm
  split
  · exact le_min (by norm_num) (by positivity)
  · exact le_refl 0

theorem richTerm_le_100 (data : Data) (field : String) : richTerm data field ≤ 100 := by
  unfold richTerm
  split
  · exact min_le_left _ _
  · norm_num

theorem foldl_rich_nonneg (data : Data) :
    ∀ (l : List String) (acc : ℚ), 0 ≤ acc →
      0 ≤ l.foldl (fun a f => a + richTerm data f) acc := by
  intro l
  induction l with
  | nil => intro acc h; exact h
  | cons f rest ih =>
    intro acc h
    exact ih (acc + richTerm data f) (add_nonneg h (richTerm_nonneg data f))

theorem foldl_rich_le (data : Data) :
    ∀ (l : List String) (acc : ℚ),
      l.foldl (fun a f => a + richTerm data f) acc ≤ acc + 100 * l.length := by
  intro l
  induction l with
  | nil => intro acc; simp
  | cons f rest ih =>
    intro acc
    have h1 := ih (acc + richTerm data f)
    have h2 := richTerm_le_100 data f
    calc (f :: rest).foldl (fun a f => a + richTerm data f) acc
        = rest.foldl (fun a f => a + richTerm data f) (acc + richTerm data f) := rfl
      _ ≤ acc + richTerm data f + 100 * rest.length := h1
      _ ≤ acc + 100 * ((f :: rest).length : ℚ) := by
          simp only [List.length_cons]
          push_cast
          linarith

theorem field_score_bounds (required : List String) (data : Data)
    (h : required ≠ []) :
    0 ≤ field_score_of required data ∧ field_score_of required data ≤ 100 := by
  have hlen : (0 : ℚ) < (required.length : ℚ) := by
    have := List.length_pos.mpr h
    exact_mod_cast this
  have hle : (present_count required data : ℚ) ≤ (required.length : ℚ) := by
    have : present_count required data ≤ required.length := List.length_filter_le _ _
    exact_mod_cast this
  constructor
  · exact mul_nonneg (div_nonneg (by positivity) hlen.le) (by norm_num)
  · have hdiv : (present_count required data : ℚ) / (required.length : ℚ) ≤ 1 :=
      (div_le_one hlen).mpr hle
    calc field_score_of required data
        = ((present_count required data : ℚ) / (required.length : ℚ)) * 100 := rfl
      _ ≤ 1 * 100 := by nlinarith [div_nonneg (show (0:ℚ) ≤ (present_count required data : ℚ) by positivity) hlen.le]
      _ = 100 := by norm_num

theorem richness_bounds (required : List String) (data : Data)
    (h : required ≠ []) :
    0 ≤ richness_of required data ∧ richness_of required data ≤ 100 := by
  have hlen : (0 : ℚ) < (required.length : ℚ) := by
    have := List.length_pos.mpr h
    exact_mod_cast this
  have hnn := foldl_rich_nonneg data required 0 (le_refl 0)
  have hub := foldl_rich_le data required 0
  constructor
  · exact div_nonneg hnn hlen.le
  · rw [richness_of, div_le_iff₀ hlen]
    calc required.foldl (fun a f => a + richTerm data f) 0
        ≤ 0 + 100 * (required.length : ℚ) := hub
      _ = 100 * (required.length : ℚ) := by ring

theorem assess_completeness_bounds (category : String) (data : Data) :
    0 ≤ assess_completeness category data ∧
    assess_completeness category data ≤ 100 := by
  by_cases hd : data.isEmpty
  · simp [assess_completeness, hd]
  · by_cases hr : (expected_fields category).isEmpty
    · have heq : assess_completeness category data = 50 := by
        simp [assess_completeness, hd, hr]
      rw [heq]
      constructor <;> norm_num
    · have hne : expected_fields category ≠ [] := by
        simpa [List.isEmpty_iff] using hr
      have hf := field_score_bounds (expected_fields category) data hne
      have hrb := richness_bounds (expected_fields category) data hne
      have heq : assess_completeness category data =
          field_score_of (expected_fields category) data * 0.6 +
          richness_of (expected_fields category) data * 0.4 := by
        simp [assess_completeness, hd, hr]
      rw [heq]
      constructor
      · nlinarith [hf.1, hrb.1]
      · nlinarith [hf.2, hrb.2]

theorem evidence_quality_bounds (sources : List String) :
    0 ≤ evidence_quality_of sources ∧ evidence_quality_of sources ≤ 100 := by
  unfold evidence_quality_of
  split
  · norm_num
  · exact ⟨le_min (by norm_num) (by positivity), min_le_left _ _⟩

end BoundsLemmas

section InvariantTheorems

/-- C10: for every threshold, category string and extraction, all three
metrics of the computed confidence score lie within the 0 to 100 schema
bounds. -/
theorem confidence_within_schema_bounds_c10 (min_confidence : ℚ)
    (category : String) (extraction : Extraction) :
    0 ≤ (calculate_confidence min_confidence category extraction).completeness ∧
    (calculate_confidence min_confidence category extraction).completeness ≤ 100 ∧
    0 ≤ (calculate_confidence min_confidence category extraction).evidence_quality ∧
    (calculate_confidence min_confidence category extraction).evidence_quality ≤ 100 ∧
    0 ≤ (calculate_confidence min_confidence category extraction).overall ∧
    (calculate_confidence min_confidence category extraction).overall ≤ 100 := by
  obtain ⟨c1, c2⟩ := assess_completeness_bounds category extraction.data
  obtain ⟨e1, e2⟩ := evidence_quality_bounds extraction.sources
  have hc : (calculate_confidence min_confidence category extraction).completeness
      = assess_completeness category extraction.data := rfl
  have he : (calculate_confidence min_confidence category extraction).evidence_quality
      = evidence_quality_of extraction.sources := rfl
  have ho : (calculate_confidence min_confidence category extraction).overall
      = overall_of (assess_completeness category extraction.data)
          (evidence_quality_of extraction.sources) := rfl
  refine ⟨by rw [hc]; exact c1, by rw [hc]; exact c2,
          by rw [he]; exact e1, by rw [he]; exact e2, ?_, ?_⟩
  · rw [ho]; unfold overall_of; nlinarith
  · rw [ho]; unfold overall_of; nlinarith

end InvariantTheorems

end LegalAdvisor
